import Mathlib

/-!
Verification development for the AV1 OBU demultiplexer and high-level
syntax parser of dav1d (src/obu.c).  The definitions below are shallow
embeddings of the C functions in src/obu.c; helpers that live in other
translation units (the bit reader of src/getbits.c, get_poc_diff of
common/frame.h, the clamp helpers of common/intops.h, and the public
enum values of the dav1d headers) are modelled from the specification
and are marked as such in their doc comments.
-/

namespace Dav1d

/-- Modelled from the spec: the error kinds surfaced by the parser
("invalid argument", "not found", "range", "no memory"). -/
inductive DavErr where
  | EINVAL
  | ENOENT
  | ERANGE
  | ENOMEM
deriving DecidableEq, Repr

/-- C INT_MAX (32-bit int). -/
def INT_MAX : Int := 2 ^ 31 - 1

/-- C INT_MIN (32-bit int), the sentinel used by the short-signaling
reference ordering in parse_frame_hdr. -/
def INT_MIN : Int := -(2 ^ 31)

/-- Modelled from the spec: the unsigned 32-bit view of a C int value,
used by the "unsigned compares" of the short-signaling algorithm. -/
def u32 (x : Int) : Nat := (x % (2 ^ 32 : Int)).toNat

/-- Modelled from the spec: iclip_u8 of common/intops.h, the
clamp_u8 of the lossless derivation (clamp to [0,255]). -/
def iclip_u8 (x : Int) : Int := max 0 (min 255 x)

/-- Modelled from the spec: imin of common/intops.h. -/
def imin (a b : Int) : Int := min a b

/-- Modelled from the spec: imax of common/intops.h. -/
def imax (a b : Int) : Int := max a b

/-- Modelled from the spec: ulog2 of common/intops.h (floor log2 of a
nonzero unsigned value). -/
def ulog2 (x : Nat) : Nat := Nat.log2 x

/-- Modelled from the spec: get_poc_diff of common/frame.h, the
"POC diff": signed difference of two order hints, wrapped to the
order-hint bit width (result in [-2^(n-1), 2^(n-1))). -/
def get_poc_diff (n_bits : Nat) (poc0 poc1 : Int) : Int :=
  if n_bits = 0 then 0
  else
    let m : Int := 2 ^ (n_bits - 1)
    (poc0 - poc1 + m) % (2 * m) - m

/-! ## Bit reader

Modelled from the spec (section 4.A): the bit reader of src/getbits.c is
not part of the sources under verification, so it is reconstructed from
its documented contract: big-endian reads of 1..32 bits, a sticky error
flag set by any read past the end (subsequent reads return 0), unsigned
LEB128 of up to 8 bytes, AV1 VLC, byte realignment.  The `pos` field
counts consumed bits; `endByte` is the reader's window end (C ptr_end);
`ptrB` is the byte cursor (C ptr), here the ceiling of the bit cursor. -/

structure GetBits where
  data : List Nat
  pos : Nat
  endByte : Nat
  error : Bool
deriving DecidableEq, Repr

/-- Modelled from the spec: initialize a bit reader over a whole byte
buffer (dav1d_init_get_bits). -/
def initGetBits (bytes : List Nat) : GetBits :=
  { data := bytes, pos := 0, endByte := bytes.length, error := false }

/-- Modelled from the spec: the byte cursor of the reader (C gb->ptr). -/
def ptrB (gb : GetBits) : Nat := (gb.pos + 7) / 8

/-- Modelled from the spec: the bit at absolute bit index i of the
buffer (big-endian within each byte). -/
def bitAt (gb : GetBits) (i : Nat) : Nat :=
  (gb.data.getD (i / 8) 0 >>> (7 - i % 8)) &&& 1

/-- Modelled from the spec: dav1d_get_bits, an unsigned big-endian read
of n bits; a read past the window end sets the sticky error flag and
returns 0; once the flag is set every read returns 0. -/
def getBits (gb : GetBits) (n : Nat) : Nat × GetBits :=
  if gb.error then (0, gb)
  else if gb.pos + n ≤ gb.endByte * 8 then
    ((List.range n).foldl (fun acc k => acc * 2 + bitAt gb (gb.pos + k)) 0,
     { gb with pos := gb.pos + n })
  else (0, { gb with error := true })

/-- Modelled from the spec: dav1d_get_bit. -/
def getBit (gb : GetBits) : Nat × GetBits := getBits gb 1

/-- Modelled from the spec: dav1d_get_uleb128, reading up to 8 bytes of
unsigned LEB128; a continuation past the 8th byte or a value beyond
32 bits sets the sticky error and yields 0. -/
def getUleb128 (gb0 : GetBits) : Nat × GetBits := Id.run do
  let mut gb := gb0
  let mut val : Nat := 0
  let mut i : Nat := 0
  let mut more : Nat := 1
  for _ in List.range 8 do
    if more = 1 then
      let (v, gb1) := getBits gb 8
      gb := gb1
      more := v >>> 7 &&& 1
      val := val + ((v &&& 0x7F) <<< i)
      i := i + 7
  if more = 1 ∨ val ≥ 2 ^ 32 then
    return (0, { gb with error := true })
  return (val, gb)

/-- Modelled from the spec: the zero-counting loop of dav1d_get_vlc,
entered after one zero bit has already been consumed.  Each step reads
one bit: a one bit ends the count, a zero bit continues; when the fuel
runs out (32 zero bits consumed in total, the fuel being 31) the code
is the failure case and none is returned, with no further bit read. -/
def getVlcZeros (gb0 : GetBits) : Nat → Option Nat × GetBits
  | 0 => (none, gb0)
  | fuel + 1 =>
    let (b, gb) := getBit gb0
    if b = 1 then (some 0, gb)
    else
      let (n, gb1) := getVlcZeros gb fuel
      (n.map (fun k => k + 1), gb1)

/-- Modelled from the spec: dav1d_get_vlc, the exp-Golomb-like AV1
variable length code of up to 32 bits.  A leading one bit encodes 0;
z leading zero bits (1 <= z <= 31) followed by a one bit encode
2^z - 1 plus a further z-bit field; 32 leading zero bits are the
failure case, returning UINT32_MAX after exactly those 32 bits. -/
def getVlc (gb0 : GetBits) : Nat × GetBits :=
  let (b, gb) := getBit gb0
  if b = 1 then (0, gb)
  else
    match getVlcZeros gb 31 with
    | (none, gb1) => (0xFFFFFFFF, gb1)
    | (some nm1, gb1) =>
      let n := nm1 + 1
      let (v, gb2) := getBits gb1 n
      (2 ^ n - 1 + v, gb2)

/-- Modelled from the spec: dav1d_bytealign_get_bits, discarding up to
7 bits to realign the reader on a byte boundary. -/
def bytealign (gb : GetBits) : GetBits :=
  { gb with pos := (gb.pos + 7) / 8 * 8 }

/-- Modelled from the spec: whether every bit from the cursor to the end
of the window is zero (the strict trailing-bits requirement). -/
def remainingBitsZero (gb : GetBits) : Bool :=
  (List.range (gb.endByte * 8 - gb.pos)).all fun k => bitAt gb (gb.pos + k) = 0

/-- check_trailing_bits of src/obu.c (lines 48-70): read the trailing
one bit; fail on reader error; in strict mode additionally require the
bit to be 1 and everything after it in the OBU to be zero (the
state/remaining-bytes scan is modelled from the spec). -/
def check_trailing_bits (gb0 : GetBits) (strict : Bool) : Except Unit GetBits :=
  let (b, gb) := getBit gb0
  if gb.error then .error ()
  else if ¬ strict then .ok gb
  else if b ≠ 1 then .error ()
  else if remainingBitsZero gb then .ok gb
  else .error ()

/-! ## tile_log2 and the tile-grid derivation (parse_frame_hdr) -/

/-- Helper loop of tile_log2; the fuel of 32 mirrors the C int width
(the loop `for (k = 0; (sz << k) < tgt; k++)` of src/obu.c line 400). -/
def tile_log2_go (sz tgt : Nat) : Nat → Nat → Nat
  | 0, k => k
  | fuel + 1, k => if sz <<< k < tgt then tile_log2_go sz tgt fuel (k + 1) else k

/-- tile_log2 of src/obu.c (lines 398-402): the smallest k such that
sz << k reaches tgt. -/
def tile_log2 (sz tgt : Nat) : Nat := tile_log2_go sz tgt 32 0

/-- The tile-grid quantities derived by parse_frame_hdr before any
tiling bit is read (src/obu.c lines 626-636). -/
structure TileDims where
  sbw : Nat
  sbh : Nat
  min_log2_cols : Nat
  max_log2_cols : Nat
  max_log2_rows : Nat
  min_log2_tiles : Nat
deriving DecidableEq, Repr

/-- The superblock / tile-log2 derivation of parse_frame_hdr
(src/obu.c lines 626-636); width0 is the post-superres width
(hdr->width[0]) and height is hdr->height; DAV1D_MAX_TILE_COLS and
DAV1D_MAX_TILE_ROWS are 64. -/
def parse_frame_hdr_tile_dims (sb128 width0 height : Nat) : TileDims :=
  let sbsz_min1 := (64 <<< sb128) - 1
  let sbsz_log2 := 6 + sb128
  let sbw := (width0 + sbsz_min1) >>> sbsz_log2
  let sbh := (height + sbsz_min1) >>> sbsz_log2
  let max_tile_width_sb := 4096 >>> sbsz_log2
  let max_tile_area_sb := (4096 * 2304) >>> (2 * sbsz_log2)
  { sbw := sbw
    sbh := sbh
    min_log2_cols := tile_log2 max_tile_width_sb sbw
    max_log2_cols := tile_log2 1 (min sbw 64)
    max_log2_rows := tile_log2 1 (min sbh 64)
    min_log2_tiles := max (tile_log2 max_tile_area_sb (sbw * sbh))
                          (tile_log2 max_tile_width_sb sbw) }

/-! ## Lossless derivation (parse_frame_hdr) -/

/-- The quantizer fields of Dav1dFrameHeader.quant that feed the
lossless derivation (src/obu.c lines 692-711, 822-823). -/
structure QuantData where
  yac : Nat
  ydc_delta : Int
  udc_delta : Int
  uac_delta : Int
  vdc_delta : Int
  vac_delta : Int
deriving DecidableEq, Repr

/-- The delta_lossless conjunction of parse_frame_hdr (src/obu.c lines
822-823): every dc/ac quantizer delta is zero. -/
def delta_lossless (q : QuantData) : Bool :=
  q.ydc_delta == 0 && q.udc_delta == 0 && q.uac_delta == 0 &&
  q.vdc_delta == 0 && q.vac_delta == 0

/-- The per-segment effective quantizer index of segment i (src/obu.c
lines 826-828). -/
def seg_qidx (q : QuantData) (seg_enabled : Bool) (delta_q : List Int)
    (i : Nat) : Int :=
  if seg_enabled then iclip_u8 ((q.yac : Int) + delta_q.getD i 0)
  else (q.yac : Int)

/-- The per-segment lossless flag of segment i (src/obu.c lines
829-830). -/
def seg_lossless (q : QuantData) (seg_enabled : Bool) (delta_q : List Int)
    (i : Nat) : Bool :=
  (seg_qidx q seg_enabled delta_q i == 0) && delta_lossless q

/-- The lossless derivation of parse_frame_hdr (src/obu.c lines
821-832): per-segment qidx, per-segment lossless flag, and the
all_lossless conjunction over the 8 segments; delta_q lists the
segmentation seg_data delta_q values. -/
def derive_lossless (q : QuantData) (seg_enabled : Bool) (delta_q : List Int) :
    List Int × List Bool × Bool :=
  let qidx := (List.range 8).map (seg_qidx q seg_enabled delta_q)
  let lossless := (List.range 8).map (seg_lossless q seg_enabled delta_q)
  (qidx, lossless, lossless.foldl (fun a b => a && b) true)

/-! ## Short-signaling reference ordering (parse_frame_hdr) -/

/-- The result of the frame_ref_short_signaling algorithm: the seven
refidx values (as C ints, -1 denoting unassigned) and earliest_ref. -/
structure ShortSigOut where
  refidx : List Int
  earliest_ref : Int
deriving DecidableEq, Repr

/-- The frame_ref_short_signaling reference-ordering algorithm of
parse_frame_hdr (src/obu.c lines 519-586).  refOffsets lists the
frame_offset of the 8 reference slots (all of which must be populated,
line 531), cur is the current frame_offset, and r0 and r3 are the two
3-bit refidx values read from the bitstream (lines 520 and 522).  The
9-entry fo list models frame_offset_mem: index 0 is the dump slot
frame_offset[-1] used by the unconditional stores, and index i+1 is
frame_offset[i]. -/
def short_ref_signaling (n_bits : Nat) (refOffsets : List Int) (cur : Int)
    (r0 r3 : Nat) : ShortSigOut := Id.run do
  let mut refidx : List Int := [(r0 : Int), -1, -1, (r3 : Int), 0, 0, 0]
  let mut fo : List Int := List.replicate 9 0
  let mut earliest_offset : Int := INT_MAX
  let mut earliest_ref : Int := -1
  for i in List.range 8 do
    let diff := get_poc_diff n_bits (refOffsets.getD i 0) cur
    fo := fo.set (i + 1) diff
    if diff < earliest_offset then
      earliest_offset := diff
      earliest_ref := i
  fo := fo.set (r0 + 1) INT_MIN
  fo := fo.set (r3 + 1) INT_MIN
  let mut ridx : Int := -1
  let mut latest_offset : Int := 0
  for i in List.range 8 do
    let hint := fo.getD (i + 1) 0
    if hint ≥ latest_offset then
      latest_offset := hint
      ridx := i
  fo := fo.set (ridx + 1).toNat INT_MIN
  refidx := refidx.set 6 ridx
  for i in [4, 5] do
    let mut earliest_u : Nat := 255
    ridx := -1
    for j in List.range 8 do
      let hint := fo.getD (j + 1) 0
      if u32 hint < earliest_u then
        earliest_u := u32 hint
        ridx := j
    fo := fo.set (ridx + 1).toNat INT_MIN
    refidx := refidx.set i ridx
  for i in [1, 2, 3, 4, 5, 6] do
    ridx := refidx.getD i 0
    if ridx < 0 then
      let mut latest_u : Nat := 4294967040
      for j in List.range 8 do
        let hint := fo.getD (j + 1) 0
        if u32 hint ≥ latest_u then
          latest_u := u32 hint
          ridx := j
      fo := fo.set (ridx + 1).toNat INT_MIN
      refidx := refidx.set i (if ridx ≥ 0 then ridx else earliest_ref)
  return { refidx := refidx, earliest_ref := earliest_ref }

/-! ## Sequence-header parser (parse_seq_hdr, src/obu.c lines 72-300)

The Dav1dSequenceHeader layout comes from the public dav1d headers
(modelled from the spec, section 3): operating_parameter_info is the
last member, so the structural comparison of dav1d_parse_obus
("all fields up to but excluding operating_parameter_info") compares
every other field.  Enum values (pixel layouts, color primaries,
transfer characteristics, matrix coefficients, adaptive booleans) are
the normative AV1 values. -/

/-- One Dav1dSequenceHeaderOperatingPoint (all fields zero before the
parse writes them, mirroring the memset). -/
structure OpPoint where
  idc : Nat := 0
  major_level : Nat := 0
  minor_level : Nat := 0
  tier : Nat := 0
  decoder_model_param_present : Nat := 0
  display_model_param_present : Nat := 0
  initial_display_delay : Nat := 0
deriving DecidableEq, Repr

/-- One Dav1dSequenceHeaderOperatingParameterInfo. -/
structure OpParamInfo where
  decoder_buffer_delay : Nat := 0
  encoder_buffer_delay : Nat := 0
  low_delay_mode : Nat := 0
deriving DecidableEq, Repr

/-- Dav1dSequenceHeader.  The two per-operating-point arrays are
modelled as lists aligned with num_operating_points (the remaining
array entries stay zero on both sides of any comparison, so list
equality coincides with the C memcmp); operating_parameter_info entries
are none where the C struct keeps zeros. -/
structure SeqHdr where
  profile : Nat := 0
  still_picture : Nat := 0
  reduced_still_picture_header : Nat := 0
  num_operating_points : Nat := 0
  operating_points : List OpPoint := []
  timing_info_present : Nat := 0
  num_units_in_tick : Nat := 0
  time_scale : Nat := 0
  equal_picture_interval : Nat := 0
  num_ticks_per_picture : Nat := 0
  decoder_model_info_present : Nat := 0
  encoder_decoder_buffer_delay_length : Nat := 0
  num_units_in_decoding_tick : Nat := 0
  buffer_removal_delay_length : Nat := 0
  frame_presentation_delay_length : Nat := 0
  display_model_info_present : Nat := 0
  width_n_bits : Nat := 0
  height_n_bits : Nat := 0
  max_width : Nat := 0
  max_height : Nat := 0
  frame_id_numbers_present : Nat := 0
  delta_frame_id_n_bits : Nat := 0
  frame_id_n_bits : Nat := 0
  sb128 : Nat := 0
  filter_intra : Nat := 0
  intra_edge_filter : Nat := 0
  inter_intra : Nat := 0
  masked_compound : Nat := 0
  warped_motion : Nat := 0
  dual_filter : Nat := 0
  order_hint : Nat := 0
  jnt_comp : Nat := 0
  ref_frame_mvs : Nat := 0
  screen_content_tools : Nat := 0
  force_integer_mv : Nat := 0
  order_hint_n_bits : Nat := 0
  super_res : Nat := 0
  cdef : Nat := 0
  restoration : Nat := 0
  hbd : Nat := 0
  monochrome : Nat := 0
  color_description_present : Nat := 0
  pri : Nat := 0
  trc : Nat := 0
  mtrx : Nat := 0
  color_range : Nat := 0
  layout : Nat := 0
  ss_hor : Nat := 0
  ss_ver : Nat := 0
  chr : Nat := 0
  separate_uv_delta_q : Nat := 0
  film_grain_present : Nat := 0
  operating_parameter_info : List (Option OpParamInfo) := []
deriving DecidableEq, Repr

/-- parse_seq_hdr of src/obu.c (lines 72-300): the sequence-header
bit-level parser; errors model the goto-error paths (EINVAL). -/
def parse_seq_hdr (gb0 : GetBits) (strict : Bool) :
    Except Unit (SeqHdr × GetBits) := Id.run do
  let mut gb := gb0
  let mut hdr : SeqHdr := {}
  let (profile, g) := getBits gb 3; gb := g
  hdr := { hdr with profile }
  if hdr.profile > 2 then return .error ()
  let (still_picture, g) := getBit gb; gb := g
  let (reduced, g) := getBit gb; gb := g
  hdr := { hdr with still_picture, reduced_still_picture_header := reduced }
  if hdr.reduced_still_picture_header = 1 ∧ hdr.still_picture = 0 then
    return .error ()
  if hdr.reduced_still_picture_header = 1 then
    hdr := { hdr with num_operating_points := 1 }
    let (major, g) := getBits gb 3; gb := g
    let (minor, g) := getBits gb 2; gb := g
    hdr := { hdr with
      operating_points := [{ major_level := major, minor_level := minor,
                             initial_display_delay := 10 }],
      operating_parameter_info := [none] }
  else
    let (tip, g) := getBit gb; gb := g
    hdr := { hdr with timing_info_present := tip }
    if hdr.timing_info_present = 1 then
      let (nuit, g) := getBits gb 32; gb := g
      let (ts, g) := getBits gb 32; gb := g
      hdr := { hdr with num_units_in_tick := nuit, time_scale := ts }
      if strict ∧ (hdr.num_units_in_tick = 0 ∨ hdr.time_scale = 0) then
        return .error ()
      let (epi, g) := getBit gb; gb := g
      hdr := { hdr with equal_picture_interval := epi }
      if hdr.equal_picture_interval = 1 then
        let (ntpp, g) := getVlc gb; gb := g
        if ntpp = 0xFFFFFFFF then return .error ()
        hdr := { hdr with num_ticks_per_picture := ntpp + 1 }
      let (dmip, g) := getBit gb; gb := g
      hdr := { hdr with decoder_model_info_present := dmip }
      if hdr.decoder_model_info_present = 1 then
        let (edbdl, g) := getBits gb 5; gb := g
        let (nudt, g) := getBits gb 32; gb := g
        hdr := { hdr with encoder_decoder_buffer_delay_length := edbdl + 1,
                          num_units_in_decoding_tick := nudt }
        if strict ∧ hdr.num_units_in_decoding_tick = 0 then return .error ()
        let (brdl, g) := getBits gb 5; gb := g
        let (fpdl, g) := getBits gb 5; gb := g
        hdr := { hdr with buffer_removal_delay_length := brdl + 1,
                          frame_presentation_delay_length := fpdl + 1 }
    let (dmodip, g) := getBit gb; gb := g
    let (nops, g) := getBits gb 5; gb := g
    hdr := { hdr with display_model_info_present := dmodip,
                      num_operating_points := nops + 1 }
    let mut ops : List OpPoint := []
    let mut opis : List (Option OpParamInfo) := []
    for _ in List.range hdr.num_operating_points do
      let mut op : OpPoint := {}
      let (idc, g) := getBits gb 12; gb := g
      op := { op with idc }
      if op.idc ≠ 0 ∧ (op.idc &&& 0xff = 0 ∨ op.idc &&& 0xf00 = 0) then
        return .error ()
      let (major, g) := getBits gb 3; gb := g
      let (minor, g) := getBits gb 2; gb := g
      op := { op with major_level := 2 + major, minor_level := minor }
      if op.major_level > 3 then
        let (tier, g) := getBit gb; gb := g
        op := { op with tier }
      let mut opi : Option OpParamInfo := none
      if hdr.decoder_model_info_present = 1 then
        let (dmpp, g) := getBit gb; gb := g
        op := { op with decoder_model_param_present := dmpp }
        if op.decoder_model_param_present = 1 then
          let (dbd, g) := getBits gb hdr.encoder_decoder_buffer_delay_length; gb := g
          let (ebd, g) := getBits gb hdr.encoder_decoder_buffer_delay_length; gb := g
          let (ldm, g) := getBit gb; gb := g
          opi := some { decoder_buffer_delay := dbd, encoder_buffer_delay := ebd,
                        low_delay_mode := ldm }
      if hdr.display_model_info_present = 1 then
        let (dmpp, g) := getBit gb; gb := g
        op := { op with display_model_param_present := dmpp }
      if op.display_model_param_present = 1 then
        let (idd, g) := getBits gb 4; gb := g
        op := { op with initial_display_delay := idd + 1 }
      else
        op := { op with initial_display_delay := 10 }
      ops := ops ++ [op]
      opis := opis ++ [opi]
    hdr := { hdr with operating_points := ops, operating_parameter_info := opis }
  let (wnb, g) := getBits gb 4; gb := g
  let (hnb, g) := getBits gb 4; gb := g
  hdr := { hdr with width_n_bits := wnb + 1, height_n_bits := hnb + 1 }
  let (mw, g) := getBits gb hdr.width_n_bits; gb := g
  let (mh, g) := getBits gb hdr.height_n_bits; gb := g
  hdr := { hdr with max_width := mw + 1, max_height := mh + 1 }
  if hdr.reduced_still_picture_header = 0 then
    let (fidp, g) := getBit gb; gb := g
    hdr := { hdr with frame_id_numbers_present := fidp }
    if hdr.frame_id_numbers_present = 1 then
      let (dfinb, g) := getBits gb 4; gb := g
      hdr := { hdr with delta_frame_id_n_bits := dfinb + 2 }
      let (finb, g) := getBits gb 3; gb := g
      hdr := { hdr with frame_id_n_bits := finb + hdr.delta_frame_id_n_bits + 1 }
  let (sb128, g) := getBit gb; gb := g
  let (filter_intra, g) := getBit gb; gb := g
  let (intra_edge_filter, g) := getBit gb; gb := g
  hdr := { hdr with sb128, filter_intra, intra_edge_filter }
  if hdr.reduced_still_picture_header = 1 then
    hdr := { hdr with screen_content_tools := 2, force_integer_mv := 2 }
  else
    let (inter_intra, g) := getBit gb; gb := g
    let (masked_compound, g) := getBit gb; gb := g
    let (warped_motion, g) := getBit gb; gb := g
    let (dual_filter, g) := getBit gb; gb := g
    let (order_hint, g) := getBit gb; gb := g
    hdr := { hdr with inter_intra, masked_compound, warped_motion, dual_filter,
                      order_hint }
    if hdr.order_hint = 1 then
      let (jnt_comp, g) := getBit gb; gb := g
      let (ref_frame_mvs, g) := getBit gb; gb := g
      hdr := { hdr with jnt_comp, ref_frame_mvs }
    let (sct1, g) := getBit gb; gb := g
    if sct1 = 1 then
      hdr := { hdr with screen_content_tools := 2 }
    else
      let (sct2, g) := getBit gb; gb := g
      hdr := { hdr with screen_content_tools := sct2 }
    if hdr.screen_content_tools ≠ 0 then
      let (fim1, g) := getBit gb; gb := g
      if fim1 = 1 then
        hdr := { hdr with force_integer_mv := 2 }
      else
        let (fim2, g) := getBit gb; gb := g
        hdr := { hdr with force_integer_mv := fim2 }
    else
      hdr := { hdr with force_integer_mv := 2 }
    if hdr.order_hint = 1 then
      let (ohnb, g) := getBits gb 3; gb := g
      hdr := { hdr with order_hint_n_bits := ohnb + 1 }
  let (super_res, g) := getBit gb; gb := g
  let (cdef, g) := getBit gb; gb := g
  let (restoration, g) := getBit gb; gb := g
  hdr := { hdr with super_res, cdef, restoration }
  let (hbd, g) := getBit gb; gb := g
  hdr := { hdr with hbd }
  if hdr.profile = 2 ∧ hdr.hbd = 1 then
    let (hbd2, g) := getBit gb; gb := g
    hdr := { hdr with hbd := hdr.hbd + hbd2 }
  if hdr.profile ≠ 1 then
    let (monochrome, g) := getBit gb; gb := g
    hdr := { hdr with monochrome }
  let (cdp, g) := getBit gb; gb := g
  hdr := { hdr with color_description_present := cdp }
  if hdr.color_description_present = 1 then
    let (pri, g) := getBits gb 8; gb := g
    let (trc, g) := getBits gb 8; gb := g
    let (mtrx, g) := getBits gb 8; gb := g
    hdr := { hdr with pri, trc, mtrx }
  else
    hdr := { hdr with pri := 2, trc := 2, mtrx := 2 }
  if hdr.monochrome = 1 then
    let (color_range, g) := getBit gb; gb := g
    hdr := { hdr with color_range, layout := 0, ss_hor := 1, ss_ver := 1,
                      chr := 0 }
  else if hdr.pri = 1 ∧ hdr.trc = 13 ∧ hdr.mtrx = 0 then
    hdr := { hdr with layout := 3, color_range := 1 }
    if hdr.profile ≠ 1 ∧ ¬ (hdr.profile = 2 ∧ hdr.hbd = 2) then
      return .error ()
  else
    let (color_range, g) := getBit gb; gb := g
    hdr := { hdr with color_range }
    if hdr.profile = 0 then
      hdr := { hdr with layout := 1, ss_hor := 1, ss_ver := 1 }
    else if hdr.profile = 1 then
      hdr := { hdr with layout := 3 }
    else
      if hdr.hbd = 2 then
        let (ss_hor, g) := getBit gb; gb := g
        hdr := { hdr with ss_hor }
        if hdr.ss_hor = 1 then
          let (ss_ver, g) := getBit gb; gb := g
          hdr := { hdr with ss_ver }
      else
        hdr := { hdr with ss_hor := 1 }
      hdr := { hdr with layout :=
        if hdr.ss_hor = 1 then (if hdr.ss_ver = 1 then 1 else 2) else 3 }
    if hdr.ss_hor &&& hdr.ss_ver = 1 then
      let (chr, g) := getBits gb 2; gb := g
      hdr := { hdr with chr }
  if strict ∧ hdr.mtrx = 0 ∧ hdr.layout ≠ 3 then
    return .error ()
  if hdr.monochrome = 0 then
    let (sep, g) := getBit gb; gb := g
    hdr := { hdr with separate_uv_delta_q := sep }
  let (fgp, g) := getBit gb; gb := g
  hdr := { hdr with film_grain_present := fgp }
  match check_trailing_bits gb strict with
  | .error e => return .error e
  | .ok gb1 => return .ok (hdr, gb1)

/-! ## dav1d_parse_sequence_header (src/obu.c lines 302-339) -/

/-- The two error returns of dav1d_parse_sequence_header. -/
inductive ParseErr where
  | einval
  | enoent
deriving DecidableEq, Repr

/-- Outcome of one iteration of the dav1d_parse_sequence_header
do-while loop (src/obu.c lines 313-336): fail (EINVAL return), done
(window exhausted), or next (continue at the next OBU); found carries
the sequence header parsed by this iteration, when the OBU was a
SEQ_HDR. -/
inductive PshIterOut where
  | fail
  | done (found : Option SeqHdr)
  | next (found : Option SeqHdr) (gb : GetBits)
deriving Repr

/-- One iteration of the dav1d_parse_sequence_header loop (src/obu.c
lines 313-336): OBU header, optional extension byte, optional leb128
length bounding obu_end, SEQ_HDR parse (OBU type 1), overrun check,
error check, and the jump to obu_end. -/
def psh_iter (gb0 : GetBits) : PshIterOut := Id.run do
  let mut gb := gb0
  let (_, g) := getBit gb; gb := g
  let (ty, g) := getBits gb 4; gb := g
  let (hasExt, g) := getBit gb; gb := g
  let (hasLen, g) := getBit gb; gb := g
  let (_, g) := getBits gb (1 + 8 * hasExt); gb := g
  let mut obuEnd := gb.endByte
  if hasLen = 1 then
    let (len, g) := getUleb128 gb; gb := g
    if len > obuEnd - ptrB gb then return .fail
    obuEnd := ptrB gb + len
  let mut found : Option SeqHdr := none
  if ty = 1 then
    match parse_seq_hdr gb false with
    | .error _ => return .fail
    | .ok (hdr, gb1) =>
      gb := gb1
      if ptrB gb > obuEnd then return .fail
      gb := bytealign gb
      found := some hdr
  if gb.error then return .fail
  let gbNext := { gb with pos := obuEnd * 8 }
  if ptrB gbNext < gbNext.endByte then return .next found gbNext
  return .done found

/-- The dav1d_parse_sequence_header do-while loop; cur is the header
most recently stored into the out parameter (res tracks ENOENT until a
SEQ_HDR parses). -/
def psh_loop : Nat → GetBits → Option SeqHdr → Except ParseErr SeqHdr
  | 0, _, _ => .error .einval
  | fuel + 1, gb, cur =>
    match psh_iter gb with
    | .fail => .error .einval
    | .done found =>
      match found with
      | some h => .ok h
      | none => match cur with
                | some h => .ok h
                | none => .error .enoent
    | .next found gb1 =>
      match found with
      | some h => psh_loop fuel gb1 (some h)
      | none => psh_loop fuel gb1 cur

/-- dav1d_parse_sequence_header of src/obu.c (lines 302-339): scan the
OBUs of a byte buffer and parse the sequence headers found in it; the
input-validation guard rejects an empty buffer. -/
def dav1d_parse_sequence_header (bytes : List Nat) : Except ParseErr SeqHdr :=
  if bytes = [] then .error .einval
  else psh_loop (bytes.length + 1) (initGetBits bytes) none

/-- Modelled from the spec: the reference OBU scan of the public
operation "parse_sequence_header" (spec section 6) - walk the OBUs of
the buffer and collect every successfully parsed SEQ_HDR, failing where
the walk fails.  It shares the per-OBU step psh_iter with the
implementation; only the selection policy is at issue. -/
def seq_scan_loop : Nat → GetBits → Except Unit (List SeqHdr)
  | 0, _ => .error ()
  | fuel + 1, gb =>
    match psh_iter gb with
    | .fail => .error ()
    | .done found => .ok found.toList
    | .next found gb1 =>
      match seq_scan_loop fuel gb1 with
      | .error e => .error e
      | .ok l => .ok (found.toList ++ l)

/-- Modelled from the spec: the collected sequence headers of a buffer
(empty buffers rejected as in the implementation). -/
def seq_hdr_scan (bytes : List Nat) : Except Unit (List SeqHdr) :=
  if bytes = [] then .error ()
  else seq_scan_loop (bytes.length + 1) (initGetBits bytes)

/-! ## Reference slots and frame types (dav1d_parse_obus state) -/

/-- Modelled from the spec: the normative AV1 frame types
(KEY = 0, INTER = 1, INTRA = 2, SWITCH = 3). -/
inductive FrameType where
  | KEY
  | INTER
  | INTRA
  | SWITCH
deriving DecidableEq, Repr

/-- The header-side view of a picture held by a reference slot
(refs[i].p.p with its frame_hdr); pid abstracts the refcounted
picture-buffer identity. -/
structure PicHdr where
  pid : Nat
  frame_type : FrameType
deriving DecidableEq, Repr

/-- The 8-slot reference table of Dav1dContext: per slot the picture
(c->refs[i].p), the CDF context (c->cdf[i]), the segmentation map
(c->refs[i].segmap), the motion-vector buffer (c->refs[i].refmvs), and
the showable flag (c->refs[i].p.showable); buffer identities are
abstracted as Nat. -/
structure RefSlots where
  pic : Fin 8 → Option PicHdr
  showable : Fin 8 → Bool
  cdf : Fin 8 → Option Nat
  segmap : Fin 8 → Option Nat
  refmvs : Fin 8 → Option Nat

/-- The show_existing_frame KEY fan-out of dav1d_parse_obus (src/obu.c
lines 1619-1638): when the referenced slot r holds a KEY frame, clear
its showable flag and, for every other slot, replace the picture, CDF
and segmentation map with slot r's and drop the motion-vector buffer
(dav1d_ref_dec(&c->refs[i].refmvs) leaves it empty). -/
def show_existing_key_fanout (s : RefSlots) (r : Fin 8) : RefSlots :=
  match s.pic r with
  | none => s
  | some ph =>
    if ph.frame_type = .KEY then
      { pic := fun i => if i = r then s.pic i else s.pic r
        showable := fun i => if i = r then false else s.showable i
        cdf := fun i => if i = r then s.cdf i else s.cdf r
        segmap := fun i => if i = r then s.segmap i else s.segmap r
        refmvs := fun i => if i = r then s.refmvs i else none }
    else s

/-! ## Sequence-header installation (dav1d_parse_obus, OBU_SEQ_HDR) -/

/-- Equality of two sequence headers on every field up to but excluding
operating_parameter_info - the memcmp of src/obu.c line 1239
(operating_parameter_info is the last member of Dav1dSequenceHeader). -/
def sameMain (a b : SeqHdr) : Bool :=
  decide ({ a with operating_parameter_info := [] } =
          { b with operating_parameter_info := [] })

/-- The context state touched by the OBU_SEQ_HDR case of
dav1d_parse_obus. -/
structure SeqInstallCtx where
  seq_hdr : Option SeqHdr
  frame_hdr_present : Bool
  refs : RefSlots
  mastering_display : Option Nat
  content_light : Option Nat
  operating_point : Nat
  operating_point_idc : Nat
  max_spatial_id : Nat

/-- An empty reference-slot table (every buffer released). -/
def clearedSlots : RefSlots :=
  { pic := fun _ => none, showable := fun _ => false, cdf := fun _ => none,
    segmap := fun _ => none, refmvs := fun _ => none }

/-- The OBU_SEQ_HDR case of dav1d_parse_obus after a successful parse
(src/obu.c lines 1224-1261): operating-point derivation, then the
three-way change detection - no previous header (new sequence, drop the
in-progress frame_hdr), a header differing on the compared prefix (new
sequence, drop frame_hdr, HDR metadata and all reference slots), or a
change confined to operating_parameter_info (raise the op-params event
only).  The two returned booleans tell whether this call raised
PICTURE_FLAG_NEW_SEQUENCE and PICTURE_FLAG_NEW_OP_PARAMS_INFO. -/
def dav1d_parse_obus_seq_hdr_install (c : SeqInstallCtx) (h : SeqHdr) :
    SeqInstallCtx × Bool × Bool :=
  let op_idx := if c.operating_point < h.num_operating_points
                then c.operating_point else 0
  let idc := (h.operating_points.getD op_idx {}).idc
  let spatial_mask := idc >>> 8
  let c := { c with operating_point_idc := idc,
                    max_spatial_id := if spatial_mask ≠ 0 then ulog2 spatial_mask
                                      else 0 }
  match c.seq_hdr with
  | none =>
    ({ c with frame_hdr_present := false, seq_hdr := some h }, true, false)
  | some cur =>
    if ¬ sameMain h cur then
      ({ c with frame_hdr_present := false,
                mastering_display := none, content_light := none,
                refs := clearedSlots, seq_hdr := some h }, true, false)
    else if h.operating_parameter_info ≠ cur.operating_parameter_info then
      ({ c with seq_hdr := some h }, false, true)
    else
      ({ c with seq_hdr := some h }, false, false)

/-! ## OBU header phase of dav1d_parse_obus (src/obu.c lines 1169-1210) -/

/-- Modelled from the spec: the normative AV1 OBU type codes. -/
def OBU_SEQ_HDR : Nat := 1
/-- Modelled from the spec: OBU type code of a temporal delimiter. -/
def OBU_TD : Nat := 2
/-- Modelled from the spec: OBU type code of a frame header. -/
def OBU_FRAME_HDR : Nat := 3
/-- Modelled from the spec: OBU type code of a tile group. -/
def OBU_TILE_GRP : Nat := 4
/-- Modelled from the spec: OBU type code of metadata. -/
def OBU_METADATA : Nat := 5
/-- Modelled from the spec: OBU type code of a frame (header + tiles). -/
def OBU_FRAME : Nat := 6
/-- Modelled from the spec: OBU type code of a redundant frame header. -/
def OBU_REDUNDANT_FRAME_HDR : Nat := 7
/-- Modelled from the spec: OBU type code of padding. -/
def OBU_PADDING : Nat := 15

/-- The bits of one OBU header together with the reader right after
them (src/obu.c lines 1176-1188). -/
structure ObuHdrBits where
  forbidden : Nat
  ty : Nat
  hasExt : Nat
  hasLen : Nat
  temporal_id : Nat
  spatial_id : Nat
  gb : GetBits
deriving Repr

/-- Read one OBU header with its optional extension (src/obu.c lines
1176-1188). -/
def read_obu_header (bytes : List Nat) : ObuHdrBits :=
  let gb := initGetBits bytes
  let (fb, gb) := getBit gb
  let (ty, gb) := getBits gb 4
  let (hasExt, gb) := getBit gb
  let (hasLen, gb) := getBit gb
  let (_, gb) := getBit gb
  if hasExt = 1 then
    let (tid, gb) := getBits gb 3
    let (sid, gb) := getBits gb 2
    let (_, gb) := getBits gb 3
    { forbidden := fb, ty, hasExt, hasLen, temporal_id := tid,
      spatial_id := sid, gb }
  else
    { forbidden := fb, ty, hasExt, hasLen, temporal_id := 0, spatial_id := 0,
      gb }

/-- Outcome of the header phase of dav1d_parse_obus: err is the goto
error path returning EINVAL; skipLayer is the early return that
silently consumes an OBU outside the selected operating-point layer;
proceed hands the (possibly length-restricted) reader to the dispatch
switch. -/
inductive ObuHeaderOutcome where
  | err
  | skipLayer (consumed : Nat)
  | proceed (ty temporal_id spatial_id : Nat) (gb : GetBits)
deriving Repr

/-- The reader-error check and temporal/spatial layer filter reached
once the OBU length has been applied (src/obu.c lines 1195-1210). -/
def obu_layer_dispatch (h : ObuHdrBits) (gb : GetBits) (opIdc : Nat) :
    ObuHeaderOutcome :=
  if gb.error then .err
  else if h.ty ≠ OBU_SEQ_HDR ∧ h.ty ≠ OBU_TD ∧ h.hasExt = 1 ∧ opIdc ≠ 0 then
    let in_temporal_layer := (opIdc >>> h.temporal_id) &&& 1
    let in_spatial_layer := (opIdc >>> (h.spatial_id + 8)) &&& 1
    if in_temporal_layer = 0 ∨ in_spatial_layer = 0 then .skipLayer gb.endByte
    else .proceed h.ty h.temporal_id h.spatial_id gb
  else .proceed h.ty h.temporal_id h.spatial_id gb

/-- The header phase of dav1d_parse_obus (src/obu.c lines 1169-1210):
forbidden-bit check in strict mode, OBU header and extension, then -
when has_length_field is set - the leb128 length, rejected right away
(goto error, before any further field of the OBU is read) when it
exceeds the bytes remaining in the input, otherwise shrinking the
window of the reader; then the reader-error check and the layer
filter. -/
def dav1d_parse_obus_header_phase (strict : Bool) (opIdc : Nat)
    (bytes : List Nat) : ObuHeaderOutcome :=
  let h := read_obu_header bytes
  if strict = true ∧ h.forbidden = 1 then .err
  else if h.hasLen = 1 then
    let (len, g) := getUleb128 h.gb
    if len > g.endByte - ptrB g then .err
    else obu_layer_dispatch h { g with endByte := ptrB g + len } opIdc
  else obu_layer_dispatch h h.gb opIdc

/-! ## Frame-header OBU case of dav1d_parse_obus (src/obu.c 1264-1320) -/

/-- The fields of the parsed frame header that the OBU_FRAME /
OBU_FRAME_HDR case of dav1d_parse_obus inspects; width1 is
hdr->width[1] (pre-superres) and both sizes are zero for a
show_existing_frame header (the struct is memset before the parse,
which returns before reading any size). -/
structure FrameHdrMin where
  show_existing_frame : Bool
  width1 : Nat
  height : Nat
deriving DecidableEq, Repr

/-- Result of the frame-header OBU case: the context's frame_hdr,
tile-group counters, and the error produced, if any. -/
structure FrameCaseOut where
  frame_hdr : Option FrameHdrMin
  n_tile_data : Nat
  n_tiles : Nat
  result : Option DavErr
deriving DecidableEq, Repr

/-- The OBU_FRAME / OBU_FRAME_HDR / OBU_REDUNDANT_FRAME_HDR case of
dav1d_parse_obus (src/obu.c lines 1264-1320): a redundant header is
ignored while a frame header is in progress; parsing requires a
sequence header; a parse failure clears frame_hdr; accumulated tile
groups are discarded after a successful parse; a frame-header OBU then
checks its trailing bits (the bit-level outcome is passed in as
trailing_ok); the frame-size ceiling yields ERANGE; and an OBU_FRAME
whose header has show_existing_frame set is rejected with the
in-progress frame_hdr cleared. -/
def dav1d_parse_obus_frame_case (ty : Nat) (seq_present : Bool)
    (c_frame_hdr : Option FrameHdrMin) (n_tile_data n_tiles : Nat)
    (parse_result : Except Unit FrameHdrMin) (trailing_ok : Bool)
    (frame_size_limit : Nat) : FrameCaseOut :=
  if ty = OBU_REDUNDANT_FRAME_HDR ∧ c_frame_hdr ≠ none then
    { frame_hdr := c_frame_hdr, n_tile_data, n_tiles, result := none }
  else if ¬ seq_present then
    { frame_hdr := c_frame_hdr, n_tile_data, n_tiles, result := some .EINVAL }
  else
    match parse_result with
    | .error _ =>
      { frame_hdr := none, n_tile_data, n_tiles, result := some .EINVAL }
    | .ok h =>
      if ty ≠ OBU_FRAME ∧ trailing_ok = false then
        { frame_hdr := none, n_tile_data := 0, n_tiles := 0,
          result := some .EINVAL }
      else if frame_size_limit ≠ 0 ∧ h.width1 * h.height > frame_size_limit then
        { frame_hdr := none, n_tile_data := 0, n_tiles := 0,
          result := some .ERANGE }
      else if ty ≠ OBU_FRAME then
        { frame_hdr := some h, n_tile_data := 0, n_tiles := 0, result := none }
      else if h.show_existing_frame then
        { frame_hdr := none, n_tile_data := 0, n_tiles := 0,
          result := some .EINVAL }
      else
        { frame_hdr := some h, n_tile_data := 0, n_tiles := 0, result := none }

/-! ## Tile groups and frame submission (src/obu.c 1154-1167, 1322-1354,
1640-1665) -/

/-- One Dav1dTileGroup range record; stop is the C field named end
(a reserved word in Lean). -/
structure TileRec where
  start : Nat
  stop : Nat
deriving DecidableEq, Repr

/-- The tile-group accounting state of Dav1dContext: the recorded tile
groups (n_tile_data = recs.length) and the accumulated tile count
n_tiles. -/
structure TileState where
  recs : List TileRec
  n_tiles : Nat
deriving DecidableEq, Repr

/-- The accumulated tile coverage: the sum of (end - start + 1) over
the recorded tile groups. -/
def tile_sum (l : List TileRec) : Nat :=
  l.foldl (fun a r => a + (1 + r.stop - r.start)) 0

/-- parse_tile_hdr of src/obu.c (lines 1154-1167): read the optional
tile position of a tile-group OBU; without one the group spans all
tiles. -/
def parse_tile_hdr (gb0 : GetBits) (cols rows log2_cols log2_rows : Nat) :
    TileRec × GetBits :=
  let n_tiles := cols * rows
  let (have_tile_pos, gb) :=
    if n_tiles > 1 then getBit gb0 else (0, gb0)
  if have_tile_pos = 1 then
    let n_bits := log2_cols + log2_rows
    let (start, gb) := getBits gb n_bits
    let (stop, gb) := getBits gb n_bits
    ({ start, stop }, gb)
  else
    ({ start := 0, stop := n_tiles - 1 }, gb)

/-- The tile-group validation and accounting of the OBU_TILE_GRP case
of dav1d_parse_obus (src/obu.c lines 1341-1353): a record with
start > end, or whose start is not the tile count accumulated so far,
discards every recorded tile group (n_tile_data and n_tiles reset to 0)
and takes the goto-error path (the returned flag; the error returned is
EINVAL); otherwise the record is appended and the coverage counter
advanced. -/
def tile_grp_update (st : TileState) (r : TileRec) : TileState × Bool :=
  if r.start > r.stop ∨ r.start ≠ st.n_tiles then
    ({ recs := [], n_tiles := 0 }, true)
  else
    ({ recs := st.recs ++ [r], n_tiles := st.n_tiles + (1 + r.stop - r.start) },
     false)

/-- Modelled from the spec: the Dav1dDecodeFrameType values in their
numeric order (ALL = 0 < REFERENCE = 1 < INTRA = 2 < KEY = 3). -/
def DFT_ALL : Nat := 0
/-- Modelled from the spec: decode-frame-type filter value REFERENCE. -/
def DFT_REFERENCE : Nat := 1
/-- Modelled from the spec: decode-frame-type filter value INTRA. -/
def DFT_INTRA : Nat := 2
/-- Modelled from the spec: decode-frame-type filter value KEY. -/
def DFT_KEY : Nat := 3

/-- The decode-frame-type filter of the submission path of
dav1d_parse_obus (src/obu.c lines 1641-1657): whether the fully
collected frame is skipped instead of submitted. -/
def frame_skip_cond (dft : Nat) (ft : FrameType) (refresh_frame_flags : Nat) :
    Bool :=
  match ft with
  | .INTER | .SWITCH =>
    dft > DFT_REFERENCE || (dft == DFT_REFERENCE && refresh_frame_flags == 0)
  | .INTRA =>
    dft > DFT_INTRA || (dft == DFT_REFERENCE && refresh_frame_flags == 0)
  | .KEY => false

/-- What the submission check at the end of dav1d_parse_obus does for a
frame that is not show_existing_frame. -/
inductive SubmitOutcome where
  | submit
  | skip
  | wait
  | err
deriving DecidableEq, Repr

/-- The frame-submission check of dav1d_parse_obus (src/obu.c lines
1640-1665): when the accumulated tile count reaches cols * rows the
frame is either skipped by the decode-frame-type filter, rejected when
no tile group was recorded, or handed to dav1d_submit_frame; otherwise
the parser keeps waiting for more tile groups. -/
def submit_decision (dft : Nat) (ft : FrameType) (refresh_frame_flags : Nat)
    (st : TileState) (cols rows : Nat) : SubmitOutcome :=
  if st.n_tiles = cols * rows then
    if frame_skip_cond dft ft refresh_frame_flags then .skip
    else if st.recs.length = 0 then .err
    else .submit
  else .wait

/-! ## Film-grain parameter parsing, update path (parse_frame_hdr,
src/obu.c lines 1079-1139) -/

/-- Read n film-grain scaling points, each an (x, value) byte pair,
enforcing strictly increasing x coordinates (src/obu.c lines 1085-1090
and 1101-1106); prev carries the previous x. -/
def read_scaling_points (gb0 : GetBits) (prev : Option Nat) :
    Nat → Except Unit (List (Nat × Nat) × GetBits)
  | 0 => .ok ([], gb0)
  | n + 1 =>
    let (x, gb) := getBits gb0 8
    if (match prev with | some p => decide (p ≥ x) | none => false) = true then
      .error ()
    else
      let (v, gb1) := getBits gb 8
      match read_scaling_points gb1 (some x) n with
      | .error e => .error e
      | .ok (l, gb2) => .ok ((x, v) :: l, gb2)

/-- The scaling-point section of the film-grain data. -/
structure FgPoints where
  num_y_points : Nat
  y_points : List (Nat × Nat)
  chroma_scaling_from_luma : Nat
  num_uv_points0 : Nat
  num_uv_points1 : Nat
  uv_points0 : List (Nat × Nat)
  uv_points1 : List (Nat × Nat)
deriving DecidableEq, Repr

/-- The scaling-point reads of the film-grain update path (src/obu.c
lines 1083-1107): the luma points (at most 14), the
chroma_scaling_from_luma bit, and - unless monochrome, scaling from
luma, or a 4:2:0 frame without luma points forces them to zero - the
two chroma point lists (at most 10 each). -/
def pfg_points_raw (gb0 : GetBits) (monochrome ss_hor ss_ver : Nat) :
    Except Unit (FgPoints × GetBits) :=
  let (num_y, gb1) := getBits gb0 4
  if num_y > 14 then .error ()
  else
    match read_scaling_points gb1 none num_y with
    | .error e => .error e
    | .ok (ypts, gb2) =>
      let (csfl, gb3) := if monochrome = 0 then getBit gb2 else (0, gb2)
      if monochrome = 1 ∨ csfl = 1 ∨ (ss_ver = 1 ∧ ss_hor = 1 ∧ num_y = 0) then
        .ok ({ num_y_points := num_y, y_points := ypts,
               chroma_scaling_from_luma := csfl, num_uv_points0 := 0,
               num_uv_points1 := 0, uv_points0 := [], uv_points1 := [] }, gb3)
      else
        let (n0, gb4) := getBits gb3 4
        if n0 > 10 then .error ()
        else
          match read_scaling_points gb4 none n0 with
          | .error e => .error e
          | .ok (uv0, gb5) =>
            let (n1, gb6) := getBits gb5 4
            if n1 > 10 then .error ()
            else
              match read_scaling_points gb6 none n1 with
              | .error e => .error e
              | .ok (uv1, gb7) =>
                .ok ({ num_y_points := num_y, y_points := ypts,
                       chroma_scaling_from_luma := csfl,
                       num_uv_points0 := n0, num_uv_points1 := n1,
                       uv_points0 := uv0, uv_points1 := uv1 }, gb7)

/-- The scaling-point section followed by the 4:2:0 symmetry check of
the update path (src/obu.c lines 1109-1113): on a subsampled frame,
exactly one chroma plane with scaling points is rejected. -/
def pfg_points (gb : GetBits) (monochrome ss_hor ss_ver : Nat) :
    Except Unit (FgPoints × GetBits) :=
  match pfg_points_raw gb monochrome ss_hor ss_ver with
  | .error e => .error e
  | .ok (p, gb1) =>
    if ss_hor = 1 ∧ ss_ver = 1 ∧
        ((p.num_uv_points0 != 0) != (p.num_uv_points1 != 0)) = true then
      .error ()
    else .ok (p, gb1)

/-- Read n AR coefficients, each a byte less 128 (src/obu.c lines
1119-1125). -/
def read_ar_coeffs (gb0 : GetBits) : Nat → List Int × GetBits
  | 0 => ([], gb0)
  | n + 1 =>
    let (v, gb1) := getBits gb0 8
    let (l, gb2) := read_ar_coeffs gb1 n
    (((v : Int) - 128) :: l, gb2)

/-- The film-grain fields parsed after the symmetry check. -/
structure FgRest where
  scaling_shift : Nat
  ar_coeff_lag : Nat
  ar_coeffs_y : List Int
  ar_coeffs_uv0 : List Int
  ar_coeffs_uv1 : List Int
  ar_coeff_shift : Nat
  grain_scale_shift : Nat
  uv_mult0 : Int
  uv_mult1 : Int
  uv_luma_mult0 : Int
  uv_luma_mult1 : Int
  uv_offset0 : Int
  uv_offset1 : Int
  overlap_flag : Nat
  clip_to_restricted_range : Nat
deriving DecidableEq, Repr

/-- The remainder of the film-grain update path after the symmetry
check (src/obu.c lines 1115-1138): scaling shift, AR lag and
coefficients (with the appended zero coefficient when there are no luma
points), shifts, chroma multipliers and offsets, overlap and clip
flags. -/
def pfg_rest (gb0 : GetBits) (p : FgPoints) : FgRest × GetBits :=
  let (ss2, gb1) := getBits gb0 2
  let scaling_shift := ss2 + 8
  let (lag, gb2) := getBits gb1 2
  let num_y_pos := 2 * lag * (lag + 1)
  let (coeffs_y, gb3) :=
    if p.num_y_points ≠ 0 then read_ar_coeffs gb2 num_y_pos else ([], gb2)
  let num_uv_pos := num_y_pos + (if p.num_y_points ≠ 0 then 1 else 0)
  let (coeffs_uv0, gb4) :=
    if p.num_uv_points0 ≠ 0 ∨ p.chroma_scaling_from_luma = 1 then
      let (l, g) := read_ar_coeffs gb3 num_uv_pos
      (if p.num_y_points = 0 then l ++ [(0 : Int)] else l, g)
    else ([], gb3)
  let (coeffs_uv1, gb5) :=
    if p.num_uv_points1 ≠ 0 ∨ p.chroma_scaling_from_luma = 1 then
      let (l, g) := read_ar_coeffs gb4 num_uv_pos
      (if p.num_y_points = 0 then l ++ [(0 : Int)] else l, g)
    else ([], gb4)
  let (acs, gb6) := getBits gb5 2
  let ar_coeff_shift := acs + 6
  let (gss, gb7) := getBits gb6 2
  let (m0, lm0, o0, gb8) :=
    if p.num_uv_points0 ≠ 0 then
      let (a, g) := getBits gb7 8
      let (b, g) := getBits g 8
      let (c, g) := getBits g 9
      ((a : Int) - 128, (b : Int) - 128, (c : Int) - 256, g)
    else (0, 0, 0, gb7)
  let (m1, lm1, o1, gb9) :=
    if p.num_uv_points1 ≠ 0 then
      let (a, g) := getBits gb8 8
      let (b, g) := getBits g 8
      let (c, g) := getBits g 9
      ((a : Int) - 128, (b : Int) - 128, (c : Int) - 256, g)
    else (0, 0, 0, gb8)
  let (ov, gb10) := getBit gb9
  let (clip, gb11) := getBit gb10
  ({ scaling_shift, ar_coeff_lag := lag, ar_coeffs_y := coeffs_y,
     ar_coeffs_uv0 := coeffs_uv0, ar_coeffs_uv1 := coeffs_uv1,
     ar_coeff_shift, grain_scale_shift := gss,
     uv_mult0 := m0, uv_mult1 := m1, uv_luma_mult0 := lm0,
     uv_luma_mult1 := lm1, uv_offset0 := o0, uv_offset1 := o1,
     overlap_flag := ov, clip_to_restricted_range := clip }, gb11)

/-- The complete Dav1dFilmGrainData written by the update path. -/
structure FilmGrainData where
  seed : Nat
  num_y_points : Nat
  y_points : List (Nat × Nat)
  chroma_scaling_from_luma : Nat
  num_uv_points0 : Nat
  num_uv_points1 : Nat
  uv_points0 : List (Nat × Nat)
  uv_points1 : List (Nat × Nat)
  scaling_shift : Nat
  ar_coeff_lag : Nat
  ar_coeffs_y : List Int
  ar_coeffs_uv0 : List Int
  ar_coeffs_uv1 : List Int
  ar_coeff_shift : Nat
  grain_scale_shift : Nat
  uv_mult0 : Int
  uv_mult1 : Int
  uv_luma_mult0 : Int
  uv_luma_mult1 : Int
  uv_offset0 : Int
  uv_offset1 : Int
  overlap_flag : Nat
  clip_to_restricted_range : Nat
deriving DecidableEq, Repr

/-- The film-grain update path of parse_frame_hdr (src/obu.c lines
1079-1139), entered with film_grain.update true: parse the scaling
points, apply the 4:2:0 symmetry check, parse the remaining fields, and
assemble the Dav1dFilmGrainData with the already-read 16-bit seed. -/
def parse_film_grain_update (gb : GetBits) (seed : Nat)
    (monochrome ss_hor ss_ver : Nat) :
    Except Unit (FilmGrainData × GetBits) :=
  match pfg_points gb monochrome ss_hor ss_ver with
  | .error e => .error e
  | .ok (p, gb1) =>
    let (r, gb2) := pfg_rest gb1 p
    .ok ({ seed, num_y_points := p.num_y_points, y_points := p.y_points,
           chroma_scaling_from_luma := p.chroma_scaling_from_luma,
           num_uv_points0 := p.num_uv_points0,
           num_uv_points1 := p.num_uv_points1,
           uv_points0 := p.uv_points0, uv_points1 := p.uv_points1,
           scaling_shift := r.scaling_shift, ar_coeff_lag := r.ar_coeff_lag,
           ar_coeffs_y := r.ar_coeffs_y, ar_coeffs_uv0 := r.ar_coeffs_uv0,
           ar_coeffs_uv1 := r.ar_coeffs_uv1,
           ar_coeff_shift := r.ar_coeff_shift,
           grain_scale_shift := r.grain_scale_shift,
           uv_mult0 := r.uv_mult0, uv_mult1 := r.uv_mult1,
           uv_luma_mult0 := r.uv_luma_mult0, uv_luma_mult1 := r.uv_luma_mult1,
           uv_offset0 := r.uv_offset0, uv_offset1 := r.uv_offset1,
           overlap_flag := r.overlap_flag,
           clip_to_restricted_range := r.clip_to_restricted_range }, gb2)

/-! # Theorems settling the claims -/

/-- C1 (counterexample): with all 8 slots holding frame offsets 4..11,
current frame_offset 12, order_hint_n_bits 4, and bitstream refidx
values 3 and 4, the short-signaling algorithm does NOT produce the
assignment claimed (refidx[6]=7, refidx[4]=1, refidx[5]=2, refidx[1]=6,
refidx[2]=5 with earliest_ref = 0). -/
theorem c1_counterexample :
    ¬ ((short_ref_signaling 4 [4, 5, 6, 7, 8, 9, 10, 11] 12 3 4).refidx.getD 6 0 = 7 ∧
       (short_ref_signaling 4 [4, 5, 6, 7, 8, 9, 10, 11] 12 3 4).refidx.getD 4 0 = 1 ∧
       (short_ref_signaling 4 [4, 5, 6, 7, 8, 9, 10, 11] 12 3 4).refidx.getD 5 0 = 2 ∧
       (short_ref_signaling 4 [4, 5, 6, 7, 8, 9, 10, 11] 12 3 4).refidx.getD 1 0 = 6 ∧
       (short_ref_signaling 4 [4, 5, 6, 7, 8, 9, 10, 11] 12 3 4).refidx.getD 2 0 = 5 ∧
       (short_ref_signaling 4 [4, 5, 6, 7, 8, 9, 10, 11] 12 3 4).earliest_ref = 0) := by
  decide

/-- C1 (amended): on that input the algorithm reads refidx[0]=3 and
refidx[3]=4 and then assigns refidx[1]=7, refidx[2]=6, refidx[4]=5,
refidx[5]=2, refidx[6]=1, with earliest_ref = slot 0 (the slots with
negative order-hint differences are picked, latest first, by the final
fill loop because the refidx[6] and refidx[4]/refidx[5] selection loops
accept no candidate on an all-past reference set). -/
theorem c1_theorem :
    short_ref_signaling 4 [4, 5, 6, 7, 8, 9, 10, 11] 12 3 4 =
      { refidx := [3, 7, 6, 4, 5, 2, 1], earliest_ref := 0 } := by
  decide

/-- C9: for tiling.uniform=1, sb128=0, post-superres width 1920 and
height 1088, parse_frame_hdr derives sbw=30, sbh=17, min_log2_cols=0,
max_log2_cols=5 and max_log2_rows=5. -/
theorem c9_theorem :
    (parse_frame_hdr_tile_dims 0 1920 1088).sbw = 30 ∧
    (parse_frame_hdr_tile_dims 0 1920 1088).sbh = 17 ∧
    (parse_frame_hdr_tile_dims 0 1920 1088).min_log2_cols = 0 ∧
    (parse_frame_hdr_tile_dims 0 1920 1088).max_log2_cols = 5 ∧
    (parse_frame_hdr_tile_dims 0 1920 1088).max_log2_rows = 5 := by
  decide

/-- C4 (counterexample): with yac = 0 and every dc/ac quantizer delta
zero, but segmentation enabled with a positive delta_q on segment 0,
the derivation yields all_lossless = false, refuting the claim that
yac = 0 with all dc/ac deltas zero yields all_lossless = true. -/
theorem c4_counterexample :
    ({ yac := 0, ydc_delta := 0, udc_delta := 0, uac_delta := 0,
       vdc_delta := 0, vac_delta := 0 } : QuantData).yac = 0 ∧
    delta_lossless { yac := 0, ydc_delta := 0, udc_delta := 0, uac_delta := 0,
                     vdc_delta := 0, vac_delta := 0 } = true ∧
    (derive_lossless { yac := 0, ydc_delta := 0, udc_delta := 0,
                       uac_delta := 0, vdc_delta := 0, vac_delta := 0 } true
       [1, 0, 0, 0, 0, 0, 0, 0]).2.2 = false := by
  decide

/-- C4 (amended): for every quantizer configuration, segmentation
enable flag and segment delta_q list - (1) qidx of each of the 8
segments is yac plus its delta_q clamped to [0,255] when segmentation
is enabled and yac otherwise; (2) a segment is lossless exactly when
its qidx is 0 and the ydc, udc, uac, vdc, vac deltas are all zero;
(3) all_lossless holds exactly when every segment is lossless; (4) in
particular yac = 0 with all dc/ac deltas zero yields all_lossless when
segmentation is disabled or no segment has a positive delta_q; and
(5) any non-zero dc/ac delta yields all_lossless = false. -/
theorem c4_theorem (q : QuantData) (en : Bool) (dq : List Int) :
    (∀ i, i < 8 → (derive_lossless q en dq).1.getD i 0 =
        (if en then iclip_u8 ((q.yac : Int) + dq.getD i 0) else (q.yac : Int)))
  ∧ (∀ i, i < 8 → ((derive_lossless q en dq).2.1.getD i false = true ↔
        ((derive_lossless q en dq).1.getD i 0 = 0 ∧ q.ydc_delta = 0 ∧
         q.udc_delta = 0 ∧ q.uac_delta = 0 ∧ q.vdc_delta = 0 ∧
         q.vac_delta = 0)))
  ∧ ((derive_lossless q en dq).2.2 = true ↔
        ∀ i, i < 8 → (derive_lossless q en dq).2.1.getD i false = true)
  ∧ ((q.yac = 0 ∧ delta_lossless q = true ∧
        (en = false ∨ ∀ i, i < 8 → dq.getD i 0 ≤ 0)) →
      (derive_lossless q en dq).2.2 = true)
  ∧ ((q.ydc_delta ≠ 0 ∨ q.udc_delta ≠ 0 ∨ q.uac_delta ≠ 0 ∨
      q.vdc_delta ≠ 0 ∨ q.vac_delta ≠ 0) →
      (derive_lossless q en dq).2.2 = false) := by
  have hr : List.range 8 = [0, 1, 2, 3, 4, 5, 6, 7] := by decide
  have hq : ∀ i, seg_lossless q en dq i = true ↔
      (seg_qidx q en dq i = 0 ∧ q.ydc_delta = 0 ∧ q.udc_delta = 0 ∧
       q.uac_delta = 0 ∧ q.vdc_delta = 0 ∧ q.vac_delta = 0) := by
    intro i
    simp [seg_lossless, delta_lossless, Bool.and_eq_true, and_assoc]
  refine ⟨?_, ?_, ?_, ?_, ?_⟩
  · intro i hi
    simp only [derive_lossless, hr, List.map]
    interval_cases i <;> simp [seg_qidx]
  · intro i hi
    simp only [derive_lossless, hr, List.map]
    interval_cases i <;> simpa using hq _
  · simp only [derive_lossless, hr, List.map, List.foldl]
    constructor
    · intro h i hi
      simp only [Bool.true_and, Bool.and_eq_true] at h
      interval_cases i <;> simp [h.1, h.2]
    · intro h
      have e0 : seg_lossless q en dq 0 = true := by simpa using h 0 (by omega)
      have e1 : seg_lossless q en dq 1 = true := by simpa using h 1 (by omega)
      have e2 : seg_lossless q en dq 2 = true := by simpa using h 2 (by omega)
      have e3 : seg_lossless q en dq 3 = true := by simpa using h 3 (by omega)
      have e4 : seg_lossless q en dq 4 = true := by simpa using h 4 (by omega)
      have e5 : seg_lossless q en dq 5 = true := by simpa using h 5 (by omega)
      have e6 : seg_lossless q en dq 6 = true := by simpa using h 6 (by omega)
      have e7 : seg_lossless q en dq 7 = true := by simpa using h 7 (by omega)
      simp [e0, e1, e2, e3, e4, e5, e6, e7]
  · rintro ⟨hyac, hdl, hen⟩
    have hseg : ∀ i, i < 8 → seg_lossless q en dq i = true := by
      intro i hi
      rcases hen with hen | hen
      · simp [seg_lossless, seg_qidx, hen, hyac, hdl]
      · have hdq := hen i hi
        have hcl : iclip_u8 ((0 : Int) + dq.getD i 0) = 0 := by
          simp only [iclip_u8]
          omega
        cases en with
        | false => simp [seg_lossless, seg_qidx, hyac, hdl]
        | true =>
          rw [List.getD_eq_getElem?_getD] at hdq
          have hcl2 : iclip_u8 (dq[i]?.getD 0) = 0 := by
            simp only [iclip_u8]
            omega
          simp [seg_lossless, seg_qidx, hyac, hdl, hcl2]
    simp only [derive_lossless, hr, List.map, List.foldl,
               hseg 0 (by omega), hseg 1 (by omega), hseg 2 (by omega),
               hseg 3 (by omega), hseg 4 (by omega), hseg 5 (by omega),
               hseg 6 (by omega), hseg 7 (by omega)]
    rfl
  · intro hne
    have hdl : delta_lossless q = false := by
      simp only [delta_lossless]
      rcases hne with h | h | h | h | h <;> simp [h]
    have hseg : ∀ i, seg_lossless q en dq i = false := by
      intro i
      simp [seg_lossless, hdl]
    simp only [derive_lossless, hr, List.map, List.foldl, hseg]
    rfl

/-- C4 (witness): the amended theorem applied to the all-zero quantizer
with segmentation disabled. -/
theorem c4_witness :
    (derive_lossless { yac := 0, ydc_delta := 0, udc_delta := 0,
                       uac_delta := 0, vdc_delta := 0, vac_delta := 0 }
       false []).2.2 = true :=
  (c4_theorem _ false []).2.2.2.1 ⟨rfl, by decide, Or.inl rfl⟩

/-- The concrete reference-slot table of scenario S3: slot 3 holds a
KEY-frame picture, every other slot an INTER picture, and every slot
has distinct CDF, segmentation-map and motion-vector buffers. -/
def c5_slots : RefSlots :=
  { pic := fun i => if i = 3 then some { pid := 30, frame_type := .KEY }
                    else some { pid := (i : Nat), frame_type := .INTER }
    showable := fun _ => true
    cdf := fun i => some (100 + (i : Nat))
    segmap := fun i => some (200 + (i : Nat))
    refmvs := fun i => some (300 + (i : Nat)) }

/-- C5 (counterexample): in scenario S3 the fan-out does not hand slot
3's motion-vector buffer to slot 0 - the buffer is dropped instead - so
the claim that the mv buffers are replaced by slot r's fails. -/
theorem c5_counterexample :
    (c5_slots.pic 3).map PicHdr.frame_type = some .KEY ∧
    c5_slots.refmvs 3 = some 303 ∧
    (show_existing_key_fanout c5_slots 3).refmvs 0 ≠ c5_slots.refmvs 3 ∧
    (show_existing_key_fanout c5_slots 3).refmvs 0 = none := by
  refine ⟨by decide, by decide, ?_, ?_⟩ <;>
    simp [show_existing_key_fanout, c5_slots]

/-- C5 (amended): when the referenced slot r holds a KEY frame, the
fan-out replaces the picture, CDF and segmentation map of every slot
i different from r with slot r's, while the motion-vector buffer of
every such slot is dropped (left empty, not replaced by slot r's);
slot r itself keeps its picture, CDF, segmentation map and
motion-vector buffer, with only its showable flag cleared. -/
theorem c5_theorem (s : RefSlots) (r : Fin 8) (ph : PicHdr)
    (hp : s.pic r = some ph) (hk : ph.frame_type = .KEY) :
    (∀ i, i ≠ r →
      (show_existing_key_fanout s r).pic i = s.pic r ∧
      (show_existing_key_fanout s r).cdf i = s.cdf r ∧
      (show_existing_key_fanout s r).segmap i = s.segmap r ∧
      (show_existing_key_fanout s r).refmvs i = none) ∧
    (show_existing_key_fanout s r).pic r = s.pic r ∧
    (show_existing_key_fanout s r).cdf r = s.cdf r ∧
    (show_existing_key_fanout s r).segmap r = s.segmap r ∧
    (show_existing_key_fanout s r).refmvs r = s.refmvs r ∧
    (show_existing_key_fanout s r).showable r = false := by
  constructor
  · intro i hi
    simp [show_existing_key_fanout, hp, hk, hi]
  · simp [show_existing_key_fanout, hp, hk]

/-- C5 (witness): the amended theorem applied to scenario S3. -/
theorem c5_witness :
    (show_existing_key_fanout c5_slots 3).pic 0 = c5_slots.pic 3 ∧
    (show_existing_key_fanout c5_slots 3).refmvs 0 = none ∧
    (show_existing_key_fanout c5_slots 3).refmvs 3 = c5_slots.refmvs 3 := by
  have h := c5_theorem c5_slots 3 { pid := 30, frame_type := .KEY }
      (by decide) rfl
  exact ⟨(h.1 0 (by decide)).1, (h.1 0 (by decide)).2.2.2, h.2.2.2.2.1⟩

/-- C6 (counterexample): a 4:2:0 film-grain update whose Y plane has
one scaling point while both UV planes have none parses successfully,
refuting the claim that a Y-nonzero / UV-zero asymmetry fails. -/
theorem c6_counterexample :
    (parse_film_grain_update (initGetBits [0x10, 0, 0, 0, 0]) 0 0 1 1).toOption.map
        (fun p => (p.1.num_y_points, p.1.num_uv_points0, p.1.num_uv_points1)) =
      some (1, 0, 0) := by
  decide

/-- C6 (amended): the update path of a 4:2:0 (ss_hor = ss_ver = 1,
non-monochrome) film-grain parse enforces symmetry between the two UV
planes only: every successful parse has num_uv_points[0] = 0 exactly
when num_uv_points[1] = 0, an input whose UV planes are asymmetric (one
with a scaling point, one without) is rejected with invalid argument,
while a Y plane with scaling points and a UV side without any is
accepted. -/
theorem c6_theorem :
    (∀ (gb : GetBits) (seed : Nat),
      (parse_film_grain_update gb seed 0 1 1).toOption.map
          (fun p => decide (p.1.num_uv_points0 = 0)) =
        (parse_film_grain_update gb seed 0 1 1).toOption.map
          (fun p => decide (p.1.num_uv_points1 = 0))) ∧
    parse_film_grain_update (initGetBits [0x10, 0, 0, 0x80, 0, 0]) 0 0 1 1 =
      .error () := by
  refine ⟨fun gb seed => ?_, by rfl⟩
  unfold parse_film_grain_update
  cases hp : pfg_points gb 0 1 1 with
  | error e => rfl
  | ok pr =>
    obtain ⟨p, gb1⟩ := pr
    have hsym : ((p.num_uv_points0 != 0) != (p.num_uv_points1 != 0)) = false := by
      unfold pfg_points at hp
      cases hraw : pfg_points_raw gb 0 1 1 with
      | error e => rw [hraw] at hp; exact absurd hp (by simp)
      | ok pr0 =>
        obtain ⟨p0, g0⟩ := pr0
        rw [hraw] at hp
        by_cases hc : ((p0.num_uv_points0 != 0) != (p0.num_uv_points1 != 0)) = true
        · simp [hc] at hp
        · simp [hc] at hp
          rw [← hp.1]
          simpa using hc
    have h01 : (p.num_uv_points0 = 0) ↔ (p.num_uv_points1 = 0) := by
      rcases Nat.eq_zero_or_pos p.num_uv_points0 with h0 | h0 <;>
        rcases Nat.eq_zero_or_pos p.num_uv_points1 with h1 | h1 <;>
          simp [h0, h1] at hsym ⊢ <;> omega
    rcases hre : pfg_rest gb1 p with ⟨r, gb2⟩
    simp only [hre, Except.toOption, Option.map]
    exact congrArg some (decide_eq_decide.mpr h01)

/-- Every branch of the sequence-header installation replaces the
current sequence header with the newly parsed one. -/
theorem seq_hdr_install_seq (c : SeqInstallCtx) (h : SeqHdr) :
    (dav1d_parse_obus_seq_hdr_install c h).1.seq_hdr = some h := by
  unfold dav1d_parse_obus_seq_hdr_install
  cases hc : c.seq_hdr with
  | none => simp [hc]
  | some cur =>
    simp only [hc]
    split_ifs <;> rfl

/-- sameMain is reflexive (a header always matches itself on the
compared prefix). -/
theorem sameMain_refl (h : SeqHdr) : sameMain h h = true := by
  simp [sameMain]

/-- C7: installing the same sequence header twice raises the
new-sequence event at most once - the second installation never raises
it and leaves the reference slots and the in-progress frame header
untouched; more generally, whenever the new header matches the current
one on every field up to but excluding operating_parameter_info,
nothing is discarded and no new-sequence event is raised. -/
theorem c7_theorem (c : SeqInstallCtx) (h : SeqHdr) :
    (dav1d_parse_obus_seq_hdr_install
        (dav1d_parse_obus_seq_hdr_install c h).1 h).2.1 = false ∧
    (dav1d_parse_obus_seq_hdr_install
        (dav1d_parse_obus_seq_hdr_install c h).1 h).1.refs =
      (dav1d_parse_obus_seq_hdr_install c h).1.refs ∧
    (dav1d_parse_obus_seq_hdr_install
        (dav1d_parse_obus_seq_hdr_install c h).1 h).1.frame_hdr_present =
      (dav1d_parse_obus_seq_hdr_install c h).1.frame_hdr_present ∧
    (∀ cur, c.seq_hdr = some cur → sameMain h cur = true →
      ((dav1d_parse_obus_seq_hdr_install c h).2.1 = false ∧
       (dav1d_parse_obus_seq_hdr_install c h).1.refs = c.refs ∧
       (dav1d_parse_obus_seq_hdr_install c h).1.frame_hdr_present =
         c.frame_hdr_present)) := by
  have hsecond : ∀ c1 : SeqInstallCtx, c1.seq_hdr = some h →
      (dav1d_parse_obus_seq_hdr_install c1 h).2.1 = false ∧
      (dav1d_parse_obus_seq_hdr_install c1 h).1.refs = c1.refs ∧
      (dav1d_parse_obus_seq_hdr_install c1 h).1.frame_hdr_present =
        c1.frame_hdr_present := by
    intro c1 hc1
    unfold dav1d_parse_obus_seq_hdr_install
    simp [hc1, sameMain_refl]
  refine ⟨?_, ?_, ?_, ?_⟩
  · exact (hsecond _ (seq_hdr_install_seq c h)).1
  · exact (hsecond _ (seq_hdr_install_seq c h)).2.1
  · exact (hsecond _ (seq_hdr_install_seq c h)).2.2
  · intro cur hcur hsame
    unfold dav1d_parse_obus_seq_hdr_install
    simp only [hcur]
    simp [hsame]
    split_ifs with hop <;> simp

/-- C7 (witness): the theorem applied to a context already holding the
default sequence header, reinstalling that same header. -/
theorem c7_witness :
    (dav1d_parse_obus_seq_hdr_install
        { seq_hdr := some {}, frame_hdr_present := true, refs := c5_slots,
          mastering_display := none, content_light := none,
          operating_point := 0, operating_point_idc := 0,
          max_spatial_id := 0 } {}).2.1 = false :=
  ((c7_theorem { seq_hdr := some {}, frame_hdr_present := true,
                 refs := c5_slots, mastering_display := none,
                 content_light := none, operating_point := 0,
                 operating_point_idc := 0, max_spatial_id := 0 } {}).2.2.2
    {} rfl (by decide)).1

/-- C8: whenever the OBU header has has_length_field set and the
leb128-decoded length exceeds the bytes remaining in the input, the
header phase of dav1d_parse_obus takes the goto-error path (returning
invalid argument) at the length check itself, before dispatching on any
further field of the OBU. -/
theorem c8_theorem (strict : Bool) (opIdc : Nat) (bytes : List Nat)
    (hlen : (read_obu_header bytes).hasLen = 1)
    (hgt : (getUleb128 (read_obu_header bytes).gb).1 >
        (getUleb128 (read_obu_header bytes).gb).2.endByte -
          ptrB (getUleb128 (read_obu_header bytes).gb).2) :
    dav1d_parse_obus_header_phase strict opIdc bytes = .err := by
  unfold dav1d_parse_obus_header_phase
  rcases hu : getUleb128 (read_obu_header bytes).gb with ⟨len, g⟩
  rw [hu] at hgt
  simp only [hlen] at *
  split_ifs with h1 <;> simp_all

/-- The scenario-S5 input: an OBU header with has_length_field set, a
leb128 length of 0xFFFFFFFF, and 10 remaining bytes. -/
def c8_bytes : List Nat :=
  [0x32, 0xFF, 0xFF, 0xFF, 0xFF, 0x0F, 0, 0, 0, 0, 0, 0, 0, 0, 0, 0]

/-- C8 (witness): the theorem applied to scenario S5. -/
theorem c8_witness :
    dav1d_parse_obus_header_phase false 0 c8_bytes = .err :=
  c8_theorem false 0 c8_bytes (by decide) (by decide)

/-- C10: an OBU of type FRAME whose embedded frame header parsed
successfully with show_existing_frame set is rejected with invalid
argument, and the in-progress frame header is cleared (provided the
parse got past the frame-size ceiling, which a show_existing_frame
header always does since its sizes stay zero). -/
theorem c10_theorem (seq_present : Bool) (c_frame_hdr : Option FrameHdrMin)
    (n_tile_data n_tiles : Nat) (h : FrameHdrMin) (trailing_ok : Bool)
    (frame_size_limit : Nat)
    (hseq : seq_present = true)
    (hshow : h.show_existing_frame = true)
    (hlim : frame_size_limit = 0 ∨ h.width1 * h.height ≤ frame_size_limit) :
    (dav1d_parse_obus_frame_case OBU_FRAME seq_present c_frame_hdr n_tile_data
        n_tiles (.ok h) trailing_ok frame_size_limit).result = some .EINVAL ∧
    (dav1d_parse_obus_frame_case OBU_FRAME seq_present c_frame_hdr n_tile_data
        n_tiles (.ok h) trailing_ok frame_size_limit).frame_hdr = none := by
  unfold dav1d_parse_obus_frame_case
  have hty : ¬ (OBU_FRAME = OBU_REDUNDANT_FRAME_HDR ∧ c_frame_hdr ≠ none) := by
    intro hcontra
    simp [OBU_FRAME, OBU_REDUNDANT_FRAME_HDR] at hcontra
  have hlim2 : ¬ (frame_size_limit ≠ 0 ∧
      h.width1 * h.height > frame_size_limit) := by
    rcases hlim with h0 | h0 <;> omega
  simp [hty, hseq, hshow, hlim2, OBU_FRAME, OBU_REDUNDANT_FRAME_HDR]

/-- C10 (witness): the theorem applied to a concrete FRAME OBU whose
header is a successfully parsed show_existing_frame header. -/
theorem c10_witness :
    (dav1d_parse_obus_frame_case OBU_FRAME true none 0 0
        (.ok { show_existing_frame := true, width1 := 0, height := 0 })
        true 0).result = some .EINVAL :=
  (c10_theorem true none 0 0
    { show_existing_frame := true, width1 := 0, height := 0 } true 0
    rfl rfl (Or.inl rfl)).1

/-- C2: (1) for a frame that is not show_existing_frame, the submission
check hands the frame to dav1d_submit_frame exactly when the
accumulated tile coverage - the sum of (end - start + 1) over the
recorded tile groups - equals cols * rows and the frame is not skipped
by the decode-frame-type filter; and (2) a tile-group record with
start > end, or whose start differs from the tile count accumulated so
far, discards every accumulated tile group (n_tile_data and n_tiles
reset to 0) on the error path, and only such records do. -/
theorem c2_theorem (dft : Nat) (ft : FrameType) (refresh : Nat)
    (st : TileState) (cols rows : Nat) (r : TileRec)
    (hinv : st.n_tiles = tile_sum st.recs) (hcr : 0 < cols * rows) :
    (submit_decision dft ft refresh st cols rows = .submit ↔
      (st.n_tiles = cols * rows ∧ frame_skip_cond dft ft refresh = false)) ∧
    ((tile_grp_update st r).2 = true ↔
      (r.start > r.stop ∨ r.start ≠ st.n_tiles)) ∧
    ((tile_grp_update st r).2 = true →
      (tile_grp_update st r).1.recs = [] ∧
      (tile_grp_update st r).1.n_tiles = 0) := by
  refine ⟨?_, ?_, ?_⟩
  · unfold submit_decision
    constructor
    · intro hs
      split_ifs at hs with h1 h2 h3
      simp_all
    · rintro ⟨heq, hskip⟩
      have hne : st.recs ≠ [] := by
        intro hnil
        rw [hinv, hnil] at heq
        simp only [tile_sum, List.foldl_nil] at heq
        omega
      have hlen : st.recs.length ≠ 0 := by
        simpa using hne
      simp [heq, hskip, hlen]
  · unfold tile_grp_update
    split_ifs with h1 <;> simp [h1]
  · unfold tile_grp_update
    split_ifs with h1 <;> simp

/-- C2 (witness): the theorem applied to a fully covered 2x2 tile grid
(submission) together with an out-of-order record (discard). -/
theorem c2_witness :
    submit_decision 0 FrameType.KEY 255
        { recs := [{ start := 0, stop := 3 }], n_tiles := 4 } 2 2 =
      SubmitOutcome.submit ∧
    (tile_grp_update { recs := [{ start := 0, stop := 3 }], n_tiles := 4 }
        { start := 5, stop := 2 }).2 = true := by
  have h := c2_theorem 0 FrameType.KEY 255
      { recs := [{ start := 0, stop := 3 }], n_tiles := 4 } 2 2
      { start := 5, stop := 2 } (by decide) (by decide)
  exact ⟨h.1.mpr ⟨by decide, by decide⟩, h.2.1.mpr (by decide)⟩

/-- The dav1d_parse_sequence_header loop refines the reference scan:
with the same fuel and reader, the implementation loop returns the last
collected sequence header (or the carried one), ENOENT when nothing was
collected or carried, and EINVAL where the scan fails. -/
theorem psh_loop_eq_scan (fuel : Nat) : ∀ (gb : GetBits) (cur : Option SeqHdr),
    psh_loop fuel gb cur =
      (match seq_scan_loop fuel gb with
       | .error _ => .error .einval
       | .ok l =>
         match l.getLast? with
         | some h => .ok h
         | none => match cur with
                   | some h => .ok h
                   | none => .error .enoent) := by
  induction fuel with
  | zero => intro gb cur; rfl
  | succ n ih =>
    intro gb cur
    simp only [psh_loop, seq_scan_loop]
    cases hit : psh_iter gb with
    | fail => rfl
    | done found => cases found <;> rfl
    | next found gb1 =>
      dsimp only
      cases found with
      | none =>
        rw [ih gb1 cur]
        cases hsc : seq_scan_loop n gb1 with
        | error e => rfl
        | ok l => simp
      | some h =>
        dsimp only
        rw [ih gb1 (some h)]
        cases hsc : seq_scan_loop n gb1 with
        | error e => rfl
        | ok l =>
          cases l with
          | nil => rfl
          | cons b t =>
            simp only [Option.toList, List.cons_append, List.nil_append,
                       List.getLast?_cons_cons]
            cases hgl : (b :: t).getLast? with
            | some x => rfl
            | none => simp at hgl

/-- C3 (amended): dav1d_parse_sequence_header scans the OBUs of the
buffer and parses every SEQ_HDR OBU it finds into the output
descriptor, so the result is the LAST sequence header of the buffer
(not the first); it returns not-found (ENOENT) when the scan completes
without any SEQ_HDR, and invalid argument (EINVAL) where the scan fails
(malformed syntax, overlong length fields, or an empty buffer); no
persistent context exists to be modified (the function takes only the
buffer). -/
theorem c3_theorem (bytes : List Nat) :
    dav1d_parse_sequence_header bytes =
      (match seq_hdr_scan bytes with
       | .error _ => .error .einval
       | .ok l =>
         match l.getLast? with
         | some h => .ok h
         | none => .error .enoent) := by
  unfold dav1d_parse_sequence_header seq_hdr_scan
  by_cases hb : bytes = []
  · simp [hb]
  · simp only [hb, if_false]
    exact psh_loop_eq_scan (bytes.length + 1) (initGetBits bytes) none

/-- The C3 counterexample input: two SEQ_HDR OBUs whose payloads differ
only in the max_width bit of the reduced-still-picture sequence header
(the first encodes max_width 1, the second max_width 2). -/
def c3_bytes : List Nat :=
  [0x0A, 5, 0x18, 0, 0, 0, 0x20, 0x0A, 5, 0x18, 0, 0x20, 0, 0x20]

/-- C3 (counterexample): on a buffer holding two different SEQ_HDR
OBUs, dav1d_parse_sequence_header returns the parse of the second one
(max_width 2), not of the first (whose payload parses to max_width 1),
refuting the claim that the first SEQ_HDR OBU is the one parsed into
the output. -/
theorem c3_counterexample :
    (dav1d_parse_sequence_header c3_bytes).toOption.map SeqHdr.max_width =
      some 2 ∧
    (parse_seq_hdr (initGetBits [0x18, 0, 0, 0, 0x20]) false).toOption.map
        (fun p => p.1.max_width) = some 1 ∧
    (seq_hdr_scan c3_bytes).toOption.map (List.map SeqHdr.max_width) =
      some [1, 2] := by
  refine ⟨?_, ?_, ?_⟩ <;> rfl

/-- C3 (witness): the amended characterization applied to the
counterexample buffer. -/
theorem c3_witness :
    dav1d_parse_sequence_header c3_bytes =
      (match seq_hdr_scan c3_bytes with
       | .error _ => .error .einval
       | .ok l =>
         match l.getLast? with
         | some h => .ok h
         | none => .error .enoent) :=
  c3_theorem c3_bytes

end Dav1d
